import Mathlib

/-!
Verification of the OpenCap reconstruction pipeline orchestration (`main.py`).

The file shallowly embeds the control flow of `Pipelines/main.py` of
mattpetrucci/opencap-core.  External collaborators (OpenCV calibration,
pose detectors, the synchronizer, triangulator, OpenSim tools — all of
which live outside the provided sources) are modelled as oracles stored in
an environment record; the embedding records each externally visible side
effect of the orchestration in an explicit effect trace, and Python
exceptions as a list of message arguments (the tuple handed to the
`Exception` constructor).  Pure path construction, logging and directory
creation (`os.makedirs`) are not claim-relevant and are not traced.
-/

namespace OpenCap

/-- Abstract camera-parameter record (`CamParams` in `main.py`): intrinsic
matrix, distortion, rotation, translation.  The pipeline never inspects its
fields, so it is modelled as an abstract token. -/
structure CamParams where
  val : Nat
deriving DecidableEq, Repr

/-- The messages that appear as Python exception arguments.  Each dedicated
constructor denotes one exact string literal of `main.py`:

* `noIntrinsics` — the unsupported-camera message (line 208);
* `calibFailed` — the generic camera-calibration failure message (line 237);
* `placementUnsupported` — the message of the single-argument
  `raise Exception` for an unrecognized checkerboard placement (line 292);
* `poseFailed`, `syncFailed`, `triangFailed`, `augmentFailed`,
  `scalingFailed`, `ikFailed` — the generic messages of the corresponding
  `except` blocks;
* `insufficientFrames` — the message of line 358,
  `Error - less than 10 good frames of triangulated data.`;
* `noScaledModel` — the message of the `ValueError` of line 511,
  `No scaled model available.`;
* `user s` — an arbitrary argument string carried by an exception raised in
  an external collaborator;
* `nameError v` — the message of the `NameError` Python raises when an
  `except` clause falls through (a caught exception with zero or at least
  three arguments re-raises nothing) and the variable `v`, never assigned,
  is used further down. -/
inductive Msg where
  | noIntrinsics
  | calibFailed
  | placementUnsupported
  | poseFailed
  | syncFailed
  | triangFailed
  | insufficientFrames
  | augmentFailed
  | scalingFailed
  | ikFailed
  | noScaledModel
  | user (s : String)
  | nameError (v : String)
deriving DecidableEq, Repr

/-- A Python exception propagating out of `main`: the list of arguments the
`Exception` constructor received (`e.args`). -/
abbrev PyErr := List Msg

/-- An exception raised inside an external collaborator, as observed at one
of the `except Exception as e` sites of `main.py`: its argument tuple
`e.args` and the `traceback.format_exc()` string available at the catch
site. -/
structure PyExc where
  args : List Msg
  tb : Msg
deriving DecidableEq, Repr

/-- The externally visible side effects of `main`, in program order.
Arguments record the data the orchestration hands to the effect:

* `calcExtrinsics cam input useSecond` records the camera parameters passed
  to `calcExtrinsicsFromVideo` and the `useSecondExtrinsicsSolution` flag;
* `synchronizeVideos f` records the `filtFreqs` cutoff table passed to the
  synchronizer;
* `triangulate d z m` records the `CamParamDict`, the `spline3dZeros` flag
  and the `splineMaxFrames` bound passed to `triangulateMultiviewVideo`;
* `writeTRC r` records the `rotationAngles` passed to
  `writeTRCfrom3DKeypoints`. -/
inductive Effect where
  | loadCachedParams (cam : String)
  | loadIntrinsics (cam : String)
  | rotateIntrinsics (cam : String) (original : CamParams)
  | calcExtrinsics (cam : String) (input : CamParams) (useSecond : Bool)
  | saveCamParams (cam : String)
  | writeSettingsYaml
  | runPoseDetector
  | synchronizeVideos (cutoffs : List (String × ℚ))
  | autoSelectExtrinsic
  | triangulate (camParams : List (String × Option CamParams))
      (spline3dZeros : Bool) (splineMaxFrames : ℤ)
  | writeTRC (angles : List (String × List ℤ))
  | augmentTRC
  | runScaling
  | popNeutralPoseImages
  | runIK
  | generateVisualizerJson
  | rewriteSettings
deriving DecidableEq, Repr

/-- Effects belonging to the camera-calibration stage
(`main.py` lines 152-254). -/
def isCalibEffect : Effect → Bool
  | .loadCachedParams _ => true
  | .loadIntrinsics _ => true
  | .rotateIntrinsics _ _ => true
  | .calcExtrinsics _ _ _ => true
  | .saveCamParams _ => true
  | _ => false

/-- Per-camera environment: the filesystem facts and external-oracle
behaviour that determine the calibration path for one camera directory.

* `cacheExists` — `cameraIntrinsicsExtrinsics.pickle` is present in the
  camera directory (line 181);
* `cachedParams` — what `loadCameraParameters` returns for that pickle
  (possibly `None`);
* `intrinsicsExist` — the permanent intrinsics directory for the camera
  model exists (line 200);
* `intrinsics` — the loaded `cameraIntrinsics.pickle` content;
* `rotated` — the behaviour of `rotateIntrinsics` for this camera video
  (line 225);
* `calcExtrinsics` — the behaviour of `calcExtrinsicsFromVideo`
  (line 229), given the (rotated) parameters and the
  `useSecondExtrinsicsSolution` flag; it may return `None` or raise. -/
structure CamEnv where
  cacheExists : Bool
  cachedParams : Option CamParams
  intrinsicsExist : Bool
  intrinsics : CamParams
  rotated : CamParams → CamParams
  calcExtrinsics : CamParams → Bool → Except PyExc (Option CamParams)

/-- `useSecondExtrinsicsSolution` of line 215:
`alternateExtrinsics is not None and camName in alternateExtrinsics`. -/
def useSecondOf (alternateExtrinsics : Option (List String))
    (cam : String) : Bool :=
  match alternateExtrinsics with
  | none => false
  | some l => l.contains cam

/-- Calibration of one camera (`main.py` lines 177-246): returns the effect
trace, and either a propagating exception or the pair of the resulting
`CamParamDict` entry and the `loadedCamParams` flag.

* Cache hit (lines 181-187): load the pickle, flag `true`; no intrinsics
  lookup, no rotation, no extrinsics computation.
* Cache miss (lines 190-239): if no permanent intrinsics directory exists,
  raise the two-argument unsupported-camera exception (line 209);
  otherwise load the intrinsics, rotate them for the video orientation
  (line 225) and call `calcExtrinsicsFromVideo` on the rotated parameters.
  A raised exception with two arguments is re-raised as is (line 235), one
  with a single argument is wrapped with the generic calibration message
  and the traceback (line 238); with any other argument count the `except`
  clause falls through and execution continues with `CamParams` still
  holding the rotated intrinsics, flag `false`. -/
def calibrateCamera (alternateExtrinsics : Option (List String))
    (env : CamEnv) (cam : String) :
    List Effect × Except PyErr (Option CamParams × Bool) :=
  if env.cacheExists then
    ([.loadCachedParams cam], .ok (env.cachedParams, true))
  else if env.intrinsicsExist then
    let useSecond := useSecondOf alternateExtrinsics cam
    let rotatedParams := env.rotated env.intrinsics
    let tr : List Effect :=
      [.loadIntrinsics cam, .rotateIntrinsics cam env.intrinsics,
       .calcExtrinsics cam rotatedParams useSecond]
    match env.calcExtrinsics rotatedParams useSecond with
    | .ok ps => (tr, .ok (ps, false))
    | .error e =>
      if e.args.length = 2 then (tr, .error e.args)
      else if e.args.length = 1 then (tr, .error [.calibFailed, e.tb])
      else (tr, .ok (some rotatedParams, false))
  else ([], .error [.noIntrinsics, .noIntrinsics])

/-- The per-camera loop of lines 177-246, in camera-directory order:
accumulates the `CamParamDict` association list and the `loadedCamParams`
flags, aborting at the first propagating exception. -/
def calibrateAll (alternateExtrinsics : Option (List String))
    (camEnv : String → CamEnv) :
    List String →
      List Effect × Except PyErr (List (String × Option CamParams) × List Bool)
  | [] => ([], .ok ([], []))
  | cam :: rest =>
    match calibrateCamera alternateExtrinsics (camEnv cam) cam with
    | (tr, .error e) => (tr, .error e)
    | (tr, .ok (ps, loaded)) =>
      match calibrateAll alternateExtrinsics camEnv rest with
      | (trs, .error e) => (tr ++ trs, .error e)
      | (trs, .ok (dict, flags)) =>
        (tr ++ trs, .ok ((cam, ps) :: dict, loaded :: flags))

/-- The whole `runCameraCalibration` block (lines 152-254): run the
per-camera loop, then, if any camera was freshly computed
(`not all(loadedCamParams)` — line 249), persist every entry of
`CamParamDict` to that camera directory. -/
def cameraCalibration (alternateExtrinsics : Option (List String))
    (camEnv : String → CamEnv) (cams : List String) :
    List Effect × Except PyErr (List (String × Option CamParams)) :=
  match calibrateAll alternateExtrinsics camEnv cams with
  | (tr, .error e) => (tr, .error e)
  | (tr, .ok (dict, flags)) =>
    if flags.all id then (tr, .ok dict)
    else (tr ++ dict.map (fun p => .saveCamParams p.1), .ok dict)

/-- The low-pass filter cutoff table of line 55:
`filtFreqs = ⟨gait: 12, default: 500⟩` (the source comments the default
entry with `defaults to framerate/2`). -/
def filtFreqs : List (String × ℚ) := [("gait", 12), ("default", 500)]

/-- `int(frameRate/5)` of line 345: Python `int()` truncates toward zero.
Frame rates are modelled as exact rationals; with `frameRate = num/den`
(`den > 0`, reduced) the quotient `frameRate/5` equals `num/(5*den)`, so
its truncation toward zero is `Int.tdiv num (5*den)`.  The lemma
`splineMaxFramesOf_eq_floor` below identifies this with `⌊frameRate / 5⌋`
for every nonnegative frame rate. -/
def splineMaxFramesOf (frameRate : ℚ) : ℤ :=
  frameRate.num.tdiv (5 * frameRate.den)

/-- The placement-to-rotation lookup of lines 275-293: the chain of
`elif checkerBoardMount == ...` branches.  Returns `none` exactly on the
final `else`, where the source raises the single-argument unsupported
placement exception (line 292).  The angle dictionary is modelled as an
association list from axis key to angle list (the `YZ` entry carries the
pair `(-90, 180)`). -/
def rotationAngles (placement : String) (upsideDownChecker : Bool) :
    Option (List (String × List ℤ)) :=
  if placement = "backWall" ∧ ¬upsideDownChecker then
    some [("y", [90]), ("z", [180])]
  else if placement = "backWall" ∧ upsideDownChecker then
    some [("y", [-90])]
  else if placement = "backWall_largeCB" then
    some [("y", [-90])]
  else if placement = "backWall_walking" then
    some [("YZ", [-90, 180])]
  else if placement = "ground" then
    some [("x", [-90]), ("y", [90])]
  else if placement = "ground_jumps" then
    some [("x", [90]), ("y", [180])]
  else if placement = "ground_gaits" then
    some [("x", [90]), ("y", [90])]
  else none

/-- The checkerboard placement presets the lookup of lines 275-293
recognizes. -/
def recognizedPlacements : List String :=
  ["backWall", "backWall_largeCB", "backWall_walking", "ground",
   "ground_jumps", "ground_gaits"]

/-- The data `main` uses from the tuple `synchronizeVideos` returns
(line 315): the resolved frame rate and the cameras eligible for
triangulation.  The remaining components (2D keypoints, confidences,
keypoint names, nan ranges, start and end frames) are unused by the
orchestration and omitted. -/
structure SyncResult where
  frameRate : ℚ
  cameras2Use : List String
deriving DecidableEq, Repr

/-- The data `main` uses from the pair `triangulateMultiviewVideo` returns
(line 342): the third dimension of the `keypoints3D` array
(`keypoints3D.shape[2]`, the number of frames of fully valid triangulated
data). -/
structure TriResult where
  nFrames : ℕ
deriving DecidableEq, Repr

/-- The common `except Exception as e` pattern of `main.py` (lines 233-238,
303-310, 323-333, 349-354, 395-400, 468-473, 504-509): an exception with
two arguments is re-raised as `Exception(e.args[0], e.args[1])`; one with a
single argument is wrapped as `Exception(generic, traceback.format_exc())`;
with any other argument count the `except` clause re-raises nothing,
execution falls through, and the first later use of the variable the `try`
body was to assign (`varName`) raises a single-argument `NameError`. -/
def handleExc (generic : Msg) (varName : String) (e : PyExc) : PyErr :=
  if e.args.length = 2 then e.args
  else if e.args.length = 1 then [generic, e.tb]
  else [.nameError varName]

/-- The arguments of `main` the embedded control flow depends on. -/
structure Args where
  extrinsicsTrial : Bool
  alternateExtrinsics : Option (List String)
  calibrationOptions : Option (List ℕ)
  scaleModel : Bool
  offset : Bool
deriving DecidableEq, Repr

/-- The session environment: filesystem facts, session metadata and the
behaviour of every external collaborator `main` calls.

* `cameras` — the camera directory names the `glob` of line 164 yields;
* `camEnv` — the per-camera calibration environment;
* `placement` — `sessionMetadata.checkerBoard.placement` (line 275);
* `upsideDown` — the behaviour of `isCheckerboardUpsideDown` on the
  calibrated camera parameters (line 272);
* `poseDetect` — the outcome of `runPoseDetector` (line 296), returning the
  video extension;
* `sync` — the outcome of `synchronizeVideos` (line 315);
* `autoSelected` — what `autoSelectExtrinsicSolution` returns (line 337);
* `triangulated` — the outcome of `triangulateMultiviewVideo` (line 342),
  given the camera parameters and `splineMaxFrames` actually passed;
* `augment` — the outcome of `augmentTRC` (line 390), returning the
  vertical offset;
* `scaleBlock` — the outcome of the scaling `try` body of lines 444-467
  (the threshold-escalation loop around `getScaleTimeRange` and the
  `runScaleTool` call, both external);
* `scaledModelExists` — the scaled model file of line 488 exists;
* `ikOutcome` — the outcome of `runIKTool` (line 501). -/
structure Env where
  cameras : List String
  camEnv : String → CamEnv
  placement : String
  upsideDown : List (String × Option CamParams) → Bool
  poseDetect : Except PyExc String
  sync : Except PyExc SyncResult
  autoSelected : List (String × Option CamParams)
  triangulated : List (String × Option CamParams) → ℤ → Except PyExc TriResult
  augment : Except PyExc ℚ
  scaleBlock : Except PyExc Unit
  scaledModelExists : Bool
  ikOutcome : Except PyExc Unit

/-- The trailing settings rewrite of lines 523-527: re-dump the settings
YAML with the vertical offset when the trial is not an extrinsics trial and
`offset` is set. -/
def finalRewrite (a : Args) (tr : List Effect) : List Effect × Option PyErr :=
  if ¬a.extrinsicsTrial ∧ a.offset then (tr ++ [.rewriteSettings], none)
  else (tr, none)

/-- The OpenSim pipeline stage (lines 407-521), entered with
`runOpenSimPipeline` set.

* `scaleModel` (lines 430-481): run the scaling block (modelled as one
  oracle, with the standard exception rewrapping of lines 468-473; on
  fall-through the unassigned `timeRange4Scaling` is used next), then
  extract the neutral-pose images and generate the visualizer JSON.
* otherwise (lines 484-511): if the scaled model file exists, run the IK
  tool (rewrapping per lines 504-509; on fall-through the unassigned
  `pathOutputIK` is used by `generateVisualizerJson`), then generate the
  visualizer JSON; if it does not exist, raise the single-argument
  `ValueError` of line 511. -/
def openSimStage (a : Args) (env : Env) (tr : List Effect) :
    List Effect × Option PyErr :=
  if a.scaleModel then
    let tr := tr ++ [Effect.runScaling]
    match env.scaleBlock with
    | .error e => (tr, some (handleExc .scalingFailed "timeRange4Scaling" e))
    | .ok _ =>
      finalRewrite a
        (tr ++ [Effect.popNeutralPoseImages, Effect.generateVisualizerJson])
  else if env.scaledModelExists then
    let tr := tr ++ [Effect.runIK]
    match env.ikOutcome with
    | .error e => (tr, some (handleExc .ikFailed "pathOutputIK" e))
    | .ok _ => finalRewrite a (tr ++ [Effect.generateVisualizerJson])
  else (tr, some [.noScaledModel])

/-- The guard of line 335:
`scaleModel and calibrationOptions is not None and alternateExtrinsics is None`. -/
def autoSelectCond (a : Args) : Bool :=
  a.scaleModel && a.calibrationOptions.isSome && a.alternateExtrinsics.isNone

/-- The camera parameters in force after lines 335-337: when the automatic
selection guard holds, `CamParamDict` is replaced by the result of
`autoSelectExtrinsicSolution`; otherwise the calibrated dictionary is kept. -/
def selectedDict (a : Args) (env : Env)
    (camParamDict : List (String × Option CamParams)) :
    List (String × Option CamParams) :=
  if autoSelectCond a then env.autoSelected else camParamDict

/-- Triangulation and everything after it (lines 339-527): call
`triangulateMultiviewVideo` with `spline3dZeros = True` and
`splineMaxFrames = int(frameRate/5)` (with the standard exception
rewrapping of lines 349-354); raise the two-argument insufficient-frames
exception of lines 356-359 when `keypoints3D.shape[2] < 10`; otherwise
write the TRC file with the resolved rotation angles (line 362), run the
marker augmentation (lines 385-400, standard rewrapping; on fall-through
the unassigned `vertical_offset` is used later), then the OpenSim stage. -/
def triStage (a : Args) (env : Env) (rot : List (String × List ℤ))
    (s : SyncResult) (camParamDict : List (String × Option CamParams))
    (tr : List Effect) : List Effect × Option PyErr :=
  let splineMaxFrames := splineMaxFramesOf s.frameRate
  let tr := tr ++ [Effect.triangulate camParamDict true splineMaxFrames]
  match env.triangulated camParamDict splineMaxFrames with
  | .error e => (tr, some (handleExc .triangFailed "keypoints3D" e))
  | .ok t =>
    if t.nFrames < 10 then
      (tr, some [.insufficientFrames, .insufficientFrames])
    else
      let tr := tr ++ [Effect.writeTRC rot, Effect.augmentTRC]
      match env.augment with
      | .error e => (tr, some (handleExc .augmentFailed "vertical_offset" e))
      | .ok _verticalOffset => openSimStage a env tr

/-- The stages of `main` that run only for a non-extrinsics trial
(lines 270-527 with all `run...` flags set).

* Pose detection (lines 270-310): resolve the rotation angles from the
  placement preset and the upside-down flag — raising the single-argument
  placement exception on an unrecognized value, before `runPoseDetector`
  is invoked — then run the pose detector with the standard rewrapping.
* Synchronization (lines 312-333): call `synchronizeVideos` with the
  `filtFreqs` table, with the standard rewrapping.
* Selection (lines 335-337): when the `autoSelectCond` guard holds, replace
  `CamParamDict` by the result of `autoSelectExtrinsicSolution`.
* Then triangulation and the rest (`triStage`). -/
def mainPipeline (a : Args) (env : Env)
    (camParamDict : List (String × Option CamParams)) (tr : List Effect) :
    List Effect × Option PyErr :=
  match rotationAngles env.placement (env.upsideDown camParamDict) with
  | none => (tr, some [.placementUnsupported])
  | some rot =>
    let tr := tr ++ [Effect.runPoseDetector]
    match env.poseDetect with
    | .error e => (tr, some (handleExc .poseFailed "videoExtension" e))
    | .ok _videoExtension =>
      let tr := tr ++ [Effect.synchronizeVideos filtFreqs]
      match env.sync with
      | .error e => (tr, some (handleExc .syncFailed "cameras2Use" e))
      | .ok s =>
        let trSel : List Effect :=
          if autoSelectCond a then [Effect.autoSelectExtrinsic] else []
        triStage a env rot s (selectedDict a env camParamDict) (tr ++ trSel)

/-- The embedded `main`.  Returns the effect trace and, when an exception
propagates to the caller, its argument list.

* The run-stage flags (lines 41-80): all six stages default to enabled;
  an extrinsics trial keeps only camera calibration.  Since the five
  non-calibration flags are all cleared exactly when `extrinsicsTrial`
  holds, the per-flag guards of the source reduce to one branch on
  `extrinsicsTrial` after calibration.
* Settings dump (lines 136-150): for a non-extrinsics trial, the settings
  YAML is written before calibration.
* Camera calibration (lines 152-254), then the remaining stages.
* For an extrinsics trial the augmentation-path bookkeeping of
  lines 366-383 still executes but performs only pure path construction,
  and the final settings rewrite of line 524 is skipped. -/
def runMain (a : Args) (env : Env) : List Effect × Option PyErr :=
  let tr0 : List Effect :=
    if a.extrinsicsTrial then [] else [Effect.writeSettingsYaml]
  match cameraCalibration a.alternateExtrinsics env.camEnv env.cameras with
  | (trC, .error e) => (tr0 ++ trC, some e)
  | (trC, .ok camParamDict) =>
    if a.extrinsicsTrial then (tr0 ++ trC, none)
    else mainPipeline a env camParamDict (tr0 ++ trC)

/-- Effects that can only be emitted after the triangulation call
(the TRC write, augmentation and the OpenSim pipeline). -/
def isPostTriEffect : Effect → Bool
  | .writeTRC _ => true
  | .augmentTRC => true
  | .runScaling => true
  | .popNeutralPoseImages => true
  | .runIK => true
  | .generateVisualizerJson => true
  | .rewriteSettings => true
  | _ => false

/-- The possible argument lists of an exception `main` surfaces to its
caller: a two-part payload, the single-argument unsupported-placement
exception of line 292, the single-argument `ValueError` of line 511, or a
single-argument `NameError` arising from a fall-through `except` clause. -/
def errPayloadOk (err : PyErr) : Prop :=
  err.length = 2 ∨ err = [Msg.placementUnsupported] ∨
    err = [Msg.noScaledModel] ∨ ∃ v, err = [Msg.nameError v]

/-! Concrete environments used to instantiate the theorems below. -/

/-- A camera whose extrinsics cache entry exists. -/
def camHit : CamEnv where
  cacheExists := true
  cachedParams := some ⟨1⟩
  intrinsicsExist := true
  intrinsics := ⟨0⟩
  rotated := fun p => ⟨p.val + 10⟩
  calcExtrinsics := fun _ _ => .ok (some ⟨2⟩)

/-- A camera whose cache entry is missing but whose intrinsics profile
exists and whose extrinsics computation succeeds. -/
def camMiss : CamEnv where
  cacheExists := false
  cachedParams := none
  intrinsicsExist := true
  intrinsics := ⟨0⟩
  rotated := fun p => ⟨p.val + 10⟩
  calcExtrinsics := fun _ _ => .ok (some ⟨2⟩)

/-- A session with one cached camera where every external stage succeeds;
the trial yields `nFrames` frames of fully valid triangulated data. -/
def envOk (nFrames : ℕ) : Env where
  cameras := ["Cam0"]
  camEnv := fun _ => camHit
  placement := "ground"
  upsideDown := fun _ => false
  poseDetect := .ok ".mov"
  sync := .ok ⟨60, ["Cam0"]⟩
  autoSelected := [("Cam0", some ⟨9⟩)]
  triangulated := fun _ _ => .ok ⟨nFrames⟩
  augment := .ok 1
  scaleBlock := .ok ()
  scaledModelExists := true
  ikOutcome := .ok ()

/-- Default arguments: a dynamic (non-extrinsics) trial without scaling. -/
def argsBase : Args where
  extrinsicsTrial := false
  alternateExtrinsics := none
  calibrationOptions := none
  scaleModel := false
  offset := true

/-- The arguments of an extrinsics (calibration-only) trial. -/
def argsExtr : Args := { argsBase with extrinsicsTrial := true }

/-- Arguments for which the spec-side automatic-selection condition holds
(two accepted calibration-option sets, no per-camera override) but
`scaleModel` does not. -/
def argsTwoOptions : Args :=
  { argsBase with calibrationOptions := some [0, 1] }

/-- Arguments for which the automatic-selection guard of line 335 holds:
scaling requested, calibration options provided, no per-camera override. -/
def argsAuto : Args :=
  { argsBase with scaleModel := true, calibrationOptions := some [0, 1] }

/-- A session identical to `envOk 12` but with an unrecognized checkerboard
placement value. -/
def envBadPlacement : Env := { envOk 12 with placement := "sideWall" }

/-- A session identical to `envOk 12` but with no scaled model on disk. -/
def envNoScaled : Env := { envOk 12 with scaledModelExists := false }

example :
    runMain argsBase (envOk 12) =
      ([.writeSettingsYaml, .loadCachedParams "Cam0", .runPoseDetector,
        .synchronizeVideos filtFreqs,
        .triangulate [("Cam0", some ⟨1⟩)] true 12,
        .writeTRC [("x", [-90]), ("y", [90])], .augmentTRC, .runIK,
        .generateVisualizerJson, .rewriteSettings], none) := by
  decide

example :
    (runMain argsBase (envOk 9)).2 =
      some [.insufficientFrames, .insufficientFrames] := by
  decide

/-! ### General lemmas -/

/-- `splineMaxFramesOf` is the floor of `frameRate / 5` for every
nonnegative frame rate (Python `int()` truncates toward zero, which
coincides with the floor on nonnegative values). -/
theorem splineMaxFramesOf_eq_floor (q : ℚ) (h : 0 ≤ q) :
    splineMaxFramesOf q = ⌊q / 5⌋ := by
  have hnum : 0 ≤ q.num := Rat.num_nonneg.mpr h
  have h1 : q / 5 = (q.num : ℚ) / ((5 * q.den : ℕ) : ℚ) := by
    conv_lhs => rw [← Rat.num_div_den q]
    push_cast
    rw [div_div]
    ring_nf
  rw [h1, Rat.floor_intCast_div_natCast]
  unfold splineMaxFramesOf
  rw [Int.tdiv_eq_ediv hnum (by positivity)]
  push_cast
  ring_nf

theorem handleExc_cases (g : Msg) (v : String) (e : PyExc) :
    (handleExc g v e).length = 2 ∨ ∃ w, handleExc g v e = [.nameError w] := by
  unfold handleExc
  split
  · left; assumption
  · split
    · left; rfl
    · right; exact ⟨v, rfl⟩

theorem calibrateCamera_fst (alt : Option (List String)) (env : CamEnv)
    (cam : String) :
    (calibrateCamera alt env cam).1 = [.loadCachedParams cam] ∨
    (calibrateCamera alt env cam).1 =
      [.loadIntrinsics cam, .rotateIntrinsics cam env.intrinsics,
       .calcExtrinsics cam (env.rotated env.intrinsics)
         (useSecondOf alt cam)] ∨
    (calibrateCamera alt env cam).1 = [] := by
  unfold calibrateCamera
  by_cases h1 : env.cacheExists
  · rw [if_pos h1]; left; rfl
  · rw [if_neg h1]
    by_cases h2 : env.intrinsicsExist
    · rw [if_pos h2]
      dsimp only
      rcases env.calcExtrinsics (env.rotated env.intrinsics)
          (useSecondOf alt cam) with e | ps
      · dsimp only
        split
        · right; left; rfl
        · split
          · right; left; rfl
          · right; left; rfl
      · right; left; rfl
    · rw [if_neg h2]; right; right; rfl

theorem calibrateCamera_effects (alt : Option (List String)) (env : CamEnv)
    (cam : String) :
    ∀ e ∈ (calibrateCamera alt env cam).1, isCalibEffect e = true := by
  intro e he
  rcases calibrateCamera_fst alt env cam with h | h | h <;> rw [h] at he
  · simp only [List.mem_singleton] at he; subst he; rfl
  · simp only [List.mem_cons, List.not_mem_nil, or_false] at he
    rcases he with rfl | rfl | rfl <;> rfl
  · simp at he

theorem calibrateCamera_error_len (alt : Option (List String)) (env : CamEnv)
    (cam : String) (err : PyErr)
    (h : (calibrateCamera alt env cam).2 = .error err) : err.length = 2 := by
  unfold calibrateCamera at h
  by_cases h1 : env.cacheExists
  · rw [if_pos h1] at h; simp at h
  · rw [if_neg h1] at h
    by_cases h2 : env.intrinsicsExist
    · rw [if_pos h2] at h
      dsimp only at h
      rcases hE : env.calcExtrinsics (env.rotated env.intrinsics)
          (useSecondOf alt cam) with e | ps
      · rw [hE] at h
        dsimp only at h
        by_cases hl2 : e.args.length = 2
        · rw [if_pos hl2] at h
          simp only at h
          cases h
          exact hl2
        · rw [if_neg hl2] at h
          by_cases hl1 : e.args.length = 1
          · rw [if_pos hl1] at h
            simp only at h
            cases h
            rfl
          · rw [if_neg hl1] at h; simp at h
      · rw [hE] at h; simp at h
    · rw [if_neg h2] at h
      simp only at h
      cases h
      rfl

theorem calibrateAll_effects (alt : Option (List String))
    (ce : String → CamEnv) (cams : List String) :
    ∀ e ∈ (calibrateAll alt ce cams).1, isCalibEffect e = true := by
  induction cams with
  | nil => intro e he; simp [calibrateAll] at he
  | cons cam rest ih =>
    intro e he
    unfold calibrateAll at he
    rcases h1 : calibrateCamera alt (ce cam) cam with ⟨tr, r⟩
    rw [h1] at he
    have htr : ∀ x ∈ tr, isCalibEffect x = true := by
      intro x hx
      exact calibrateCamera_effects alt (ce cam) cam x (by rw [h1]; exact hx)
    cases r with
    | error er => exact htr e he
    | ok pr =>
      rcases pr with ⟨ps, loaded⟩
      rcases h2 : calibrateAll alt ce rest with ⟨trs, r2⟩
      rw [h2] at he
      have htrs : ∀ x ∈ trs, isCalibEffect x = true := by
        intro x hx
        exact ih x (by rw [h2]; exact hx)
      cases r2 with
      | error er =>
        rcases List.mem_append.mp he with h | h
        · exact htr e h
        · exact htrs e h
      | ok pr2 =>
        rcases List.mem_append.mp he with h | h
        · exact htr e h
        · exact htrs e h

theorem calibrateAll_error_len (alt : Option (List String))
    (ce : String → CamEnv) (cams : List String) (err : PyErr)
    (h : (calibrateAll alt ce cams).2 = .error err) : err.length = 2 := by
  induction cams with
  | nil => simp [calibrateAll] at h
  | cons cam rest ih =>
    unfold calibrateAll at h
    rcases h1 : calibrateCamera alt (ce cam) cam with ⟨tr, r⟩
    rw [h1] at h
    cases r with
    | error er =>
      simp only at h
      cases h
      exact calibrateCamera_error_len alt (ce cam) cam err (by rw [h1])
    | ok pr =>
      rcases pr with ⟨ps, loaded⟩
      rcases h2 : calibrateAll alt ce rest with ⟨trs, r2⟩
      rw [h2] at h
      cases r2 with
      | error er =>
        simp only at h
        cases h
        exact ih (by rw [h2])
      | ok pr2 => simp at h

theorem cameraCalibration_effects (alt : Option (List String))
    (ce : String → CamEnv) (cams : List String) :
    ∀ e ∈ (cameraCalibration alt ce cams).1, isCalibEffect e = true := by
  intro e he
  unfold cameraCalibration at he
  rcases h1 : calibrateAll alt ce cams with ⟨tr, r⟩
  rw [h1] at he
  have htr : ∀ x ∈ tr, isCalibEffect x = true := by
    intro x hx
    exact calibrateAll_effects alt ce cams x (by rw [h1]; exact hx)
  cases r with
  | error er => exact htr e he
  | ok pr =>
    rcases pr with ⟨dict, flags⟩
    dsimp only at he
    by_cases hall : flags.all id
    · rw [if_pos hall] at he
      exact htr e he
    · rw [if_neg hall] at he
      rcases List.mem_append.mp he with h | h
      · exact htr e h
      · rcases List.mem_map.mp h with ⟨p, _, rfl⟩
        rfl

theorem cameraCalibration_error_len (alt : Option (List String))
    (ce : String → CamEnv) (cams : List String) (err : PyErr)
    (h : (cameraCalibration alt ce cams).2 = .error err) : err.length = 2 := by
  unfold cameraCalibration at h
  rcases h1 : calibrateAll alt ce cams with ⟨tr, r⟩
  rw [h1] at h
  cases r with
  | error er =>
    simp only at h
    cases h
    exact calibrateAll_error_len alt ce cams err (by rw [h1])
  | ok pr =>
    rcases pr with ⟨dict, flags⟩
    dsimp only at h
    by_cases hall : flags.all id
    · rw [if_pos hall] at h; simp at h
    · rw [if_neg hall] at h; simp at h

theorem finalRewrite_snd (a : Args) (tr : List Effect) :
    (finalRewrite a tr).2 = none := by
  unfold finalRewrite
  split <;> rfl

theorem finalRewrite_shape (a : Args) (tr : List Effect) :
    ∃ extra, (finalRewrite a tr).1 = tr ++ extra ∧
      ∀ e ∈ extra, isPostTriEffect e = true := by
  unfold finalRewrite
  split
  · exact ⟨[.rewriteSettings], rfl, by intro e he; simp at he; subst he; rfl⟩
  · exact ⟨[], by simp, by intro e he; simp at he⟩

theorem openSimStage_shape (a : Args) (env : Env) (tr : List Effect) :
    ∃ extra, (openSimStage a env tr).1 = tr ++ extra ∧
      ∀ e ∈ extra, isPostTriEffect e = true := by
  unfold openSimStage
  by_cases hs : a.scaleModel
  · rw [if_pos hs]
    dsimp only
    rcases env.scaleBlock with e | u
    · exact ⟨[.runScaling], rfl, by intro e he; simp at he; subst he; rfl⟩
    · dsimp only
      rcases finalRewrite_shape a
          (tr ++ [Effect.runScaling] ++
            [Effect.popNeutralPoseImages, Effect.generateVisualizerJson])
        with ⟨ex, hex, hall⟩
      refine ⟨[Effect.runScaling, Effect.popNeutralPoseImages,
        Effect.generateVisualizerJson] ++ ex, ?_, ?_⟩
      · rw [hex]
        simp
      · intro e he
        rcases List.mem_append.mp he with h | h
        · simp only [List.mem_cons, List.not_mem_nil, or_false] at h
          rcases h with rfl | rfl | rfl <;> rfl
        · exact hall e h
  · rw [if_neg hs]
    by_cases hm : env.scaledModelExists
    · rw [if_pos hm]
      dsimp only
      rcases env.ikOutcome with e | u
      · exact ⟨[.runIK], rfl, by intro e he; simp at he; subst he; rfl⟩
      · dsimp only
        rcases finalRewrite_shape a
            (tr ++ [Effect.runIK] ++ [Effect.generateVisualizerJson])
          with ⟨ex, hex, hall⟩
        refine ⟨[Effect.runIK, Effect.generateVisualizerJson] ++ ex, ?_, ?_⟩
        · rw [hex]
          simp
        · intro e he
          rcases List.mem_append.mp he with h | h
          · simp only [List.mem_cons, List.not_mem_nil, or_false] at h
            rcases h with rfl | rfl <;> rfl
          · exact hall e h
    · rw [if_neg hm]
      exact ⟨[], by simp, by intro e he; simp at he⟩

theorem openSimStage_error (a : Args) (env : Env) (tr : List Effect)
    (err : PyErr) (h : (openSimStage a env tr).2 = some err) :
    errPayloadOk err := by
  unfold openSimStage at h
  by_cases hs : a.scaleModel
  · rw [if_pos hs] at h
    dsimp only at h
    rcases hb : env.scaleBlock with e | u <;> rw [hb] at h
    · dsimp only at h
      cases h
      rcases handleExc_cases .scalingFailed "timeRange4Scaling" e with h2 | ⟨w, h2⟩
      · exact Or.inl h2
      · exact Or.inr (Or.inr (Or.inr ⟨w, h2⟩))
    · dsimp only at h
      rw [finalRewrite_snd] at h
      exact absurd h (by simp)
  · rw [if_neg hs] at h
    by_cases hm : env.scaledModelExists
    · rw [if_pos hm] at h
      dsimp only at h
      rcases hb : env.ikOutcome with e | u <;> rw [hb] at h
      · dsimp only at h
        cases h
        rcases handleExc_cases .ikFailed "pathOutputIK" e with h2 | ⟨w, h2⟩
        · exact Or.inl h2
        · exact Or.inr (Or.inr (Or.inr ⟨w, h2⟩))
      · dsimp only at h
        rw [finalRewrite_snd] at h
        exact absurd h (by simp)
    · rw [if_neg hm] at h
      simp only [Option.some_inj] at h
      exact Or.inr (Or.inr (Or.inl h.symm))

theorem triStage_shape (a : Args) (env : Env) (rot : List (String × List ℤ))
    (s : SyncResult) (dict : List (String × Option CamParams))
    (tr : List Effect) :
    ∃ extra, (triStage a env rot s dict tr).1 =
      tr ++ [Effect.triangulate dict true (splineMaxFramesOf s.frameRate)]
        ++ extra ∧
      ∀ e ∈ extra, isPostTriEffect e = true := by
  unfold triStage
  dsimp only
  rcases env.triangulated dict (splineMaxFramesOf s.frameRate) with e | t
  · exact ⟨[], by simp, by intro e he; simp at he⟩
  · dsimp only
    by_cases h10 : t.nFrames < 10
    · rw [if_pos h10]
      exact ⟨[], by simp, by intro e he; simp at he⟩
    · rw [if_neg h10]
      rcases env.augment with e | v
      · refine ⟨[Effect.writeTRC rot, Effect.augmentTRC], by simp, ?_⟩
        intro e he
        simp only [List.mem_cons, List.not_mem_nil, or_false] at he
        rcases he with rfl | rfl <;> rfl
      · dsimp only
        rcases openSimStage_shape a env
            (tr ++ [Effect.triangulate dict true
              (splineMaxFramesOf s.frameRate)] ++
              [Effect.writeTRC rot, Effect.augmentTRC])
          with ⟨ex, hex, hall⟩
        refine ⟨[Effect.writeTRC rot, Effect.augmentTRC] ++ ex, ?_, ?_⟩
        · rw [hex]
          simp
        · intro e he
          rcases List.mem_append.mp he with h | h
          · simp only [List.mem_cons, List.not_mem_nil, or_false] at h
            rcases h with rfl | rfl <;> rfl
          · exact hall e h

theorem triStage_error (a : Args) (env : Env) (rot : List (String × List ℤ))
    (s : SyncResult) (dict : List (String × Option CamParams))
    (tr : List Effect) (err : PyErr)
    (h : (triStage a env rot s dict tr).2 = some err) :
    errPayloadOk err := by
  unfold triStage at h
  dsimp only at h
  rcases hT : env.triangulated dict (splineMaxFramesOf s.frameRate)
      with e | t <;> rw [hT] at h
  · dsimp only at h
    cases h
    rcases handleExc_cases .triangFailed "keypoints3D" e with h2 | ⟨w, h2⟩
    · exact Or.inl h2
    · exact Or.inr (Or.inr (Or.inr ⟨w, h2⟩))
  · dsimp only at h
    by_cases h10 : t.nFrames < 10
    · rw [if_pos h10] at h
      simp only [Option.some_inj] at h
      exact Or.inl (by rw [← h]; rfl)
    · rw [if_neg h10] at h
      rcases hA : env.augment with e | v <;> rw [hA] at h
      · dsimp only at h
        cases h
        rcases handleExc_cases .augmentFailed "vertical_offset" e
          with h2 | ⟨w, h2⟩
        · exact Or.inl h2
        · exact Or.inr (Or.inr (Or.inr ⟨w, h2⟩))
      · exact openSimStage_error a env _ err h

theorem triStage_lt10 (a : Args) (env : Env) (rot : List (String × List ℤ))
    (s : SyncResult) (dict : List (String × Option CamParams))
    (tr : List Effect) (t : TriResult)
    (ht : env.triangulated dict (splineMaxFramesOf s.frameRate) = .ok t)
    (h10 : t.nFrames < 10) :
    triStage a env rot s dict tr =
      (tr ++ [Effect.triangulate dict true (splineMaxFramesOf s.frameRate)],
       some [.insufficientFrames, .insufficientFrames]) := by
  unfold triStage
  dsimp only
  rw [ht]
  dsimp only
  rw [if_pos h10]

theorem triStage_writeTRC (a : Args) (env : Env) (rot : List (String × List ℤ))
    (s : SyncResult) (dict : List (String × Option CamParams))
    (tr : List Effect) (t : TriResult)
    (ht : env.triangulated dict (splineMaxFramesOf s.frameRate) = .ok t)
    (h10 : ¬t.nFrames < 10) :
    Effect.writeTRC rot ∈ (triStage a env rot s dict tr).1 := by
  unfold triStage
  dsimp only
  rw [ht]
  dsimp only
  rw [if_neg h10]
  rcases env.augment with e | v
  · simp
  · rcases openSimStage_shape a env
        (tr ++ [Effect.triangulate dict true (splineMaxFramesOf s.frameRate)]
          ++ [Effect.writeTRC rot, Effect.augmentTRC]) with ⟨ex, hex, _⟩
    rw [hex]
    simp

theorem mainPipeline_placement_none (a : Args) (env : Env)
    (d : List (String × Option CamParams)) (tr : List Effect)
    (h : rotationAngles env.placement (env.upsideDown d) = none) :
    mainPipeline a env d tr = (tr, some [.placementUnsupported]) := by
  unfold mainPipeline
  rw [h]

theorem mainPipeline_reach (a : Args) (env : Env)
    (d : List (String × Option CamParams)) (tr : List Effect)
    (rot : List (String × List ℤ))
    (hrot : rotationAngles env.placement (env.upsideDown d) = some rot)
    (ext : String) (hp : env.poseDetect = .ok ext)
    (s : SyncResult) (hs : env.sync = .ok s) :
    mainPipeline a env d tr =
      triStage a env rot s (selectedDict a env d)
        (tr ++ [Effect.runPoseDetector, Effect.synchronizeVideos filtFreqs]
          ++ (if autoSelectCond a then [Effect.autoSelectExtrinsic]
              else [])) := by
  unfold mainPipeline
  rw [hrot]
  dsimp only
  rw [hp]
  dsimp only
  rw [hs]
  dsimp only
  unfold selectedDict
  congr 1
  simp

theorem mainPipeline_error (a : Args) (env : Env)
    (d : List (String × Option CamParams)) (tr : List Effect) (err : PyErr)
    (h : (mainPipeline a env d tr).2 = some err) : errPayloadOk err := by
  unfold mainPipeline at h
  rcases hR : rotationAngles env.placement (env.upsideDown d) with _ | rot <;>
    rw [hR] at h
  · dsimp only at h
    cases h
    exact Or.inr (Or.inl rfl)
  · dsimp only at h
    rcases hP : env.poseDetect with e | ext <;> rw [hP] at h
    · dsimp only at h
      cases h
      rcases handleExc_cases .poseFailed "videoExtension" e with h2 | ⟨w, h2⟩
      · exact Or.inl h2
      · exact Or.inr (Or.inr (Or.inr ⟨w, h2⟩))
    · dsimp only at h
      rcases hS : env.sync with e | s <;> rw [hS] at h
      · dsimp only at h
        cases h
        rcases handleExc_cases .syncFailed "cameras2Use" e with h2 | ⟨w, h2⟩
        · exact Or.inl h2
        · exact Or.inr (Or.inr (Or.inr ⟨w, h2⟩))
      · exact triStage_error a env rot s _ _ err h

theorem runMain_calib_error (a : Args) (env : Env) (trC : List Effect)
    (err : PyErr)
    (hc : cameraCalibration a.alternateExtrinsics env.camEnv env.cameras =
      (trC, .error err)) :
    runMain a env =
      ((if a.extrinsicsTrial then [] else [Effect.writeSettingsYaml]) ++ trC,
       some err) := by
  unfold runMain
  rw [hc]

theorem runMain_ok (a : Args) (env : Env) (hx : a.extrinsicsTrial = false)
    (trC : List Effect) (d : List (String × Option CamParams))
    (hc : cameraCalibration a.alternateExtrinsics env.camEnv env.cameras =
      (trC, .ok d)) :
    runMain a env = mainPipeline a env d (Effect.writeSettingsYaml :: trC) := by
  unfold runMain
  rw [hc]
  simp [hx]

theorem runMain_extr_fst (a : Args) (env : Env)
    (hx : a.extrinsicsTrial = true) :
    (runMain a env).1 =
      (cameraCalibration a.alternateExtrinsics env.camEnv env.cameras).1 := by
  unfold runMain
  rcases hc : cameraCalibration a.alternateExtrinsics env.camEnv env.cameras
    with ⟨trC, r⟩
  cases r <;> simp [hx]

theorem runMain_error (a : Args) (env : Env) (err : PyErr)
    (h : (runMain a env).2 = some err) : errPayloadOk err := by
  unfold runMain at h
  rcases hc : cameraCalibration a.alternateExtrinsics env.camEnv env.cameras
    with ⟨trC, r⟩
  rw [hc] at h
  cases r with
  | error e =>
    dsimp only at h
    cases h
    exact Or.inl (cameraCalibration_error_len _ _ _ _ (by rw [hc]))
  | ok d =>
    dsimp only at h
    by_cases hx : a.extrinsicsTrial
    · rw [if_pos hx] at h
      simp at h
    · rw [if_neg hx] at h
      exact mainPipeline_error a env d _ err h

theorem mem_prefix_cases (a : Args) (trC : List Effect) (e : Effect)
    (h : e ∈ (Effect.writeSettingsYaml :: trC) ++
      [Effect.runPoseDetector, Effect.synchronizeVideos filtFreqs] ++
      (if autoSelectCond a then [Effect.autoSelectExtrinsic] else [])) :
    e = Effect.writeSettingsYaml ∨ e ∈ trC ∨ e = Effect.runPoseDetector ∨
    e = Effect.synchronizeVideos filtFreqs ∨
    e = Effect.autoSelectExtrinsic := by
  by_cases hA : autoSelectCond a <;> simp [hA] at h <;> tauto

/-- The full effect trace under the hypotheses that the trial is dynamic,
calibration succeeds, the placement is recognized, and the pose detector
and the synchronizer both return: the prefix up to the triangulation call
is fixed, and everything after it is a post-triangulation effect. -/
theorem runMain_trace_shape (a : Args) (env : Env)
    (hx : a.extrinsicsTrial = false)
    (trC : List Effect) (d : List (String × Option CamParams))
    (hc : cameraCalibration a.alternateExtrinsics env.camEnv env.cameras =
      (trC, .ok d))
    (rot : List (String × List ℤ))
    (hrot : rotationAngles env.placement (env.upsideDown d) = some rot)
    (ext : String) (hp : env.poseDetect = .ok ext)
    (s : SyncResult) (hs : env.sync = .ok s) :
    ∃ extra, (runMain a env).1 =
      ((Effect.writeSettingsYaml :: trC) ++
        [Effect.runPoseDetector, Effect.synchronizeVideos filtFreqs] ++
        (if autoSelectCond a then [Effect.autoSelectExtrinsic] else [])) ++
      [Effect.triangulate (selectedDict a env d) true
        (splineMaxFramesOf s.frameRate)] ++ extra ∧
      ∀ e ∈ extra, isPostTriEffect e = true := by
  rw [runMain_ok a env hx trC d hc,
    mainPipeline_reach a env d _ rot hrot ext hp s hs]
  exact triStage_shape a env rot s _ _

/-! ### Claim theorems -/

/-- C6: for every camera whose extrinsics cache entry already exists, the
calibration step returns the cached parameters unchanged, with
`loadedCamParams = true`, and its only effect is loading the cache entry —
no intrinsics lookup, no intrinsics rotation, no extrinsics
recomputation. -/
theorem calibration_cache_hit_idempotent (alt : Option (List String))
    (env : CamEnv) (cam : String) (h : env.cacheExists = true) :
    calibrateCamera alt env cam =
      ([Effect.loadCachedParams cam], .ok (env.cachedParams, true)) := by
  unfold calibrateCamera
  rw [if_pos h]

theorem calibration_cache_hit_idempotent_witness :
    calibrateCamera none camHit "Cam0" =
      ([Effect.loadCachedParams "Cam0"],
       .ok (some ⟨1⟩, true)) :=
  calibration_cache_hit_idempotent none camHit "Cam0" rfl

/-- C8: whenever extrinsics are computed (cache miss with an existing
intrinsics profile), the effect trace of the calibration step is exactly:
load the intrinsics, rotate them for the video orientation, then run the
extrinsics computation on the rotated parameters — so `rotateIntrinsics`
precedes `calcExtrinsicsFromVideo` and the pose solve never receives
uncorrected intrinsics. -/
theorem intrinsics_rotated_before_extrinsics (alt : Option (List String))
    (env : CamEnv) (cam : String) (h1 : env.cacheExists = false)
    (h2 : env.intrinsicsExist = true) :
    (calibrateCamera alt env cam).1 =
      [Effect.loadIntrinsics cam, Effect.rotateIntrinsics cam env.intrinsics,
       Effect.calcExtrinsics cam (env.rotated env.intrinsics)
         (useSecondOf alt cam)] ∧
    ∀ p u, Effect.calcExtrinsics cam p u ∈ (calibrateCamera alt env cam).1 →
      p = env.rotated env.intrinsics := by
  have hfst : (calibrateCamera alt env cam).1 =
      [Effect.loadIntrinsics cam, Effect.rotateIntrinsics cam env.intrinsics,
       Effect.calcExtrinsics cam (env.rotated env.intrinsics)
         (useSecondOf alt cam)] := by
    unfold calibrateCamera
    rw [if_neg (by simp [h1]), if_pos h2]
    dsimp only
    rcases env.calcExtrinsics (env.rotated env.intrinsics)
        (useSecondOf alt cam) with e | ps
    · dsimp only
      split
      · rfl
      · split <;> rfl
    · rfl
  refine ⟨hfst, ?_⟩
  intro p u hmem
  rw [hfst] at hmem
  simp at hmem
  exact hmem.1

theorem intrinsics_rotated_before_extrinsics_witness :
    (calibrateCamera none camMiss "Cam0").1 =
      [Effect.loadIntrinsics "Cam0",
       Effect.rotateIntrinsics "Cam0" ⟨0⟩,
       Effect.calcExtrinsics "Cam0" ⟨10⟩ false] ∧
    ∀ p u, Effect.calcExtrinsics "Cam0" p u ∈
        (calibrateCamera none camMiss "Cam0").1 →
      p = ⟨10⟩ :=
  intrinsics_rotated_before_extrinsics none camMiss "Cam0" rfl rfl

/-- C9: the upside-down-checkerboard flag influences the resolved rotation
angles only for the `backWall` placement: for every other recognized
placement the lookup is independent of the flag, while for `backWall` the
two flag values give different angle sets. -/
theorem upside_down_only_backwall :
    (∀ p, p ∈ recognizedPlacements → p ≠ "backWall" →
      ∀ u v, rotationAngles p u = rotationAngles p v) ∧
    rotationAngles "backWall" false ≠ rotationAngles "backWall" true := by
  constructor
  · intro p hp hb u v
    fin_cases hp
    · exact absurd rfl hb
    · cases u <;> cases v <;> rfl
    · cases u <;> cases v <;> rfl
    · cases u <;> cases v <;> rfl
    · cases u <;> cases v <;> rfl
    · cases u <;> cases v <;> rfl
  · decide

theorem upside_down_only_backwall_witness :
    rotationAngles "ground" true = rotationAngles "ground" false :=
  upside_down_only_backwall.1 "ground" (by decide) (by decide) true false

/-- C10: for an extrinsics trial only camera calibration executes — every
effect in the trace is a calibration effect, so no settings YAML is
written, the pose detector, synchronizer, triangulator, marker augmenter
and OpenSim tools are never invoked, and no TRC file is written. -/
theorem extrinsics_trial_only_calibration (a : Args) (env : Env)
    (hx : a.extrinsicsTrial = true) :
    (∀ e ∈ (runMain a env).1, isCalibEffect e = true) ∧
    Effect.writeSettingsYaml ∉ (runMain a env).1 ∧
    (∀ r, Effect.writeTRC r ∉ (runMain a env).1) ∧
    Effect.runPoseDetector ∉ (runMain a env).1 ∧
    (∀ f, Effect.synchronizeVideos f ∉ (runMain a env).1) ∧
    (∀ d z m, Effect.triangulate d z m ∉ (runMain a env).1) ∧
    Effect.augmentTRC ∉ (runMain a env).1 ∧
    Effect.runScaling ∉ (runMain a env).1 ∧
    Effect.runIK ∉ (runMain a env).1 := by
  have base : ∀ e ∈ (runMain a env).1, isCalibEffect e = true := by
    intro e he
    rw [runMain_extr_fst a env hx] at he
    exact cameraCalibration_effects _ _ _ e he
  refine ⟨base, fun h => ?_, fun r h => ?_, fun h => ?_, fun f h => ?_,
    fun d z m h => ?_, fun h => ?_, fun h => ?_, fun h => ?_⟩ <;>
    simpa [isCalibEffect] using base _ h

theorem extrinsics_trial_only_calibration_witness :
    (∀ e ∈ (runMain argsExtr (envOk 12)).1, isCalibEffect e = true) ∧
    Effect.writeSettingsYaml ∉ (runMain argsExtr (envOk 12)).1 ∧
    (∀ r, Effect.writeTRC r ∉ (runMain argsExtr (envOk 12)).1) ∧
    Effect.runPoseDetector ∉ (runMain argsExtr (envOk 12)).1 ∧
    (∀ f, Effect.synchronizeVideos f ∉ (runMain argsExtr (envOk 12)).1) ∧
    (∀ d z m, Effect.triangulate d z m ∉ (runMain argsExtr (envOk 12)).1) ∧
    Effect.augmentTRC ∉ (runMain argsExtr (envOk 12)).1 ∧
    Effect.runScaling ∉ (runMain argsExtr (envOk 12)).1 ∧
    Effect.runIK ∉ (runMain argsExtr (envOk 12)).1 :=
  extrinsics_trial_only_calibration argsExtr (envOk 12) rfl

/-- C1: after a successful triangulation call, if the number of frames of
fully valid 3D data (`keypoints3D.shape[2]`) is strictly below 10, `main`
raises the fatal two-argument insufficient-frames exception and the TRC
file is not written; with 10 or more frames the TRC file is written. -/
theorem insufficient_frames_postcondition (a : Args) (env : Env)
    (hx : a.extrinsicsTrial = false)
    (trC : List Effect) (d : List (String × Option CamParams))
    (hc : cameraCalibration a.alternateExtrinsics env.camEnv env.cameras =
      (trC, .ok d))
    (rot : List (String × List ℤ))
    (hrot : rotationAngles env.placement (env.upsideDown d) = some rot)
    (ext : String) (hp : env.poseDetect = .ok ext)
    (s : SyncResult) (hs : env.sync = .ok s)
    (t : TriResult)
    (ht : env.triangulated (selectedDict a env d)
      (splineMaxFramesOf s.frameRate) = .ok t) :
    (t.nFrames < 10 →
      (runMain a env).2 =
        some [Msg.insufficientFrames, Msg.insufficientFrames] ∧
      ∀ r, Effect.writeTRC r ∉ (runMain a env).1) ∧
    (10 ≤ t.nFrames → Effect.writeTRC rot ∈ (runMain a env).1) := by
  have hrm := runMain_ok a env hx trC d hc
  have hmp := mainPipeline_reach a env d
    (Effect.writeSettingsYaml :: trC) rot hrot ext hp s hs
  constructor
  · intro h10
    rw [hrm, hmp, triStage_lt10 a env rot s _ _ t ht h10]
    refine ⟨rfl, ?_⟩
    intro r hmem
    rcases List.mem_append.mp hmem with h | h
    · rcases mem_prefix_cases a trC _ h with h | h | h | h | h
      · exact absurd h (by simp)
      · have := cameraCalibration_effects a.alternateExtrinsics env.camEnv
          env.cameras _ (by rw [hc]; exact h)
        simp [isCalibEffect] at this
      · exact absurd h (by simp)
      · exact absurd h (by simp)
      · exact absurd h (by simp)
    · simp at h
  · intro h10
    rw [hrm, hmp]
    exact triStage_writeTRC a env rot s _ _ t ht (by omega)

theorem insufficient_frames_postcondition_witness :
    ((runMain argsBase (envOk 9)).2 =
      some [Msg.insufficientFrames, Msg.insufficientFrames] ∧
     ∀ r, Effect.writeTRC r ∉ (runMain argsBase (envOk 9)).1) ∧
    Effect.writeTRC [("x", [-90]), ("y", [90])] ∈
      (runMain argsBase (envOk 12)).1 := by
  constructor
  · exact (insufficient_frames_postcondition argsBase (envOk 9) rfl
      [Effect.loadCachedParams "Cam0"] [("Cam0", some ⟨1⟩)] rfl
      [("x", [-90]), ("y", [90])] (by decide) ".mov" rfl
      ⟨60, ["Cam0"]⟩ rfl ⟨9⟩ rfl).1 (by decide)
  · exact (insufficient_frames_postcondition argsBase (envOk 12) rfl
      [Effect.loadCachedParams "Cam0"] [("Cam0", some ⟨1⟩)] rfl
      [("x", [-90]), ("y", [90])] (by decide) ".mov" rfl
      ⟨60, ["Cam0"]⟩ rfl ⟨12⟩ rfl).2 (by decide)

/-- C3: for a dynamic trial whose session metadata carries a checkerboard
placement outside the recognized preset set, `main` raises the fatal
configuration exception before the pose detector is ever invoked, and the
placement lookup yields no rotation for any value of the upside-down flag
(no silent default). -/
theorem unknown_placement_fails_fast (a : Args) (env : Env)
    (hx : a.extrinsicsTrial = false)
    (hplace : env.placement ∉ recognizedPlacements)
    (trC : List Effect) (d : List (String × Option CamParams))
    (hc : cameraCalibration a.alternateExtrinsics env.camEnv env.cameras =
      (trC, .ok d)) :
    (runMain a env).2 = some [Msg.placementUnsupported] ∧
    Effect.runPoseDetector ∉ (runMain a env).1 ∧
    ∀ u, rotationAngles env.placement u = none := by
  have hnone : ∀ u, rotationAngles env.placement u = none := by
    intro u
    simp only [recognizedPlacements, List.mem_cons, List.not_mem_nil,
      or_false, not_or] at hplace
    obtain ⟨h1, h2, h3, h4, h5, h6⟩ := hplace
    simp [rotationAngles, h1, h2, h3, h4, h5, h6]
  rw [runMain_ok a env hx trC d hc,
    mainPipeline_placement_none a env d _ (hnone _)]
  refine ⟨rfl, ?_, hnone⟩
  intro hmem
  simp only [List.mem_cons] at hmem
  rcases hmem with h | h
  · exact absurd h (by simp)
  · have := cameraCalibration_effects a.alternateExtrinsics env.camEnv
      env.cameras _ (by rw [hc]; exact h)
    simp [isCalibEffect] at this

theorem unknown_placement_fails_fast_witness :
    (runMain argsBase envBadPlacement).2 =
      some [Msg.placementUnsupported] ∧
    Effect.runPoseDetector ∉ (runMain argsBase envBadPlacement).1 ∧
    ∀ u, rotationAngles envBadPlacement.placement u = none :=
  unknown_placement_fails_fast argsBase envBadPlacement rfl (by decide)
    [Effect.loadCachedParams "Cam0"] [("Cam0", some ⟨1⟩)] rfl

/-- C4 (amended context of the reach hypotheses): in every run that reaches
the triangulation call, the `triangulateMultiviewVideo` call receives
`spline3dZeros = True` and `splineMaxFrames = int(frameRate/5)` — the
truncation of one fifth of a second of frames — and no triangulation call
with any other flag or bound occurs; for nonnegative frame rates the bound
is `⌊frameRate / 5⌋`. -/
theorem triangulator_gap_parameters (a : Args) (env : Env)
    (hx : a.extrinsicsTrial = false)
    (trC : List Effect) (d : List (String × Option CamParams))
    (hc : cameraCalibration a.alternateExtrinsics env.camEnv env.cameras =
      (trC, .ok d))
    (rot : List (String × List ℤ))
    (hrot : rotationAngles env.placement (env.upsideDown d) = some rot)
    (ext : String) (hp : env.poseDetect = .ok ext)
    (s : SyncResult) (hs : env.sync = .ok s) :
    Effect.triangulate (selectedDict a env d) true
      (splineMaxFramesOf s.frameRate) ∈ (runMain a env).1 ∧
    (∀ dict z m, Effect.triangulate dict z m ∈ (runMain a env).1 →
      z = true ∧ m = splineMaxFramesOf s.frameRate) ∧
    (0 ≤ s.frameRate → splineMaxFramesOf s.frameRate = ⌊s.frameRate / 5⌋) := by
  obtain ⟨extra, htr, hextra⟩ :=
    runMain_trace_shape a env hx trC d hc rot hrot ext hp s hs
  refine ⟨?_, ?_, fun h => splineMaxFramesOf_eq_floor _ h⟩
  · rw [htr]
    simp
  · intro dict z m hmem
    rw [htr] at hmem
    rcases List.mem_append.mp hmem with h | h
    · rcases List.mem_append.mp h with h | h
      · rcases mem_prefix_cases a trC _ h with h | h | h | h | h
        · exact absurd h (by simp)
        · have := cameraCalibration_effects a.alternateExtrinsics env.camEnv
            env.cameras _ (by rw [hc]; exact h)
          simp [isCalibEffect] at this
        · exact absurd h (by simp)
        · exact absurd h (by simp)
        · exact absurd h (by simp)
      · simp only [List.mem_singleton] at h
        injection h with _ hz hm
        exact ⟨hz, hm⟩
    · have := hextra _ h
      simp [isPostTriEffect] at this

theorem triangulator_gap_parameters_witness :
    Effect.triangulate [("Cam0", some ⟨1⟩)] true (splineMaxFramesOf 60) ∈
      (runMain argsBase (envOk 12)).1 :=
  (triangulator_gap_parameters argsBase (envOk 12) rfl
    [Effect.loadCachedParams "Cam0"] [("Cam0", some ⟨1⟩)] rfl
    [("x", [-90]), ("y", [90])] (by decide) ".mov" rfl
    ⟨60, ["Cam0"]⟩ rfl).1

/-- C5, counterexample: the cutoff table actually handed to the
synchronizer is the fixed `⟨gait: 12, default: 500⟩` literal — in a run
whose resolved frame rate is 60 fps the `default` entry is 500 Hz, not
half the frame rate (30 Hz). -/
theorem sync_cutoff_counterexample :
    Effect.synchronizeVideos filtFreqs ∈ (runMain argsBase (envOk 12)).1 ∧
    filtFreqs = [("gait", 12), ("default", 500)] ∧
    (envOk 12).sync = .ok ⟨60, ["Cam0"]⟩ ∧
    (500 : ℚ) ≠ 60 / 2 := by
  refine ⟨by decide, rfl, rfl, by norm_num⟩

/-- C5, amended: the cutoff table passed to the synchronizer maps `gait`
trials to 12 Hz and every other activity to the fixed 500 Hz sentinel
(commented in the source as defaulting to half the frame rate downstream);
the same table is passed in every run that reaches synchronization, and no
other table is ever passed. -/
theorem sync_cutoff_table (a : Args) (env : Env)
    (hx : a.extrinsicsTrial = false)
    (trC : List Effect) (d : List (String × Option CamParams))
    (hc : cameraCalibration a.alternateExtrinsics env.camEnv env.cameras =
      (trC, .ok d))
    (rot : List (String × List ℤ))
    (hrot : rotationAngles env.placement (env.upsideDown d) = some rot)
    (ext : String) (hp : env.poseDetect = .ok ext)
    (s : SyncResult) (hs : env.sync = .ok s) :
    Effect.synchronizeVideos filtFreqs ∈ (runMain a env).1 ∧
    (∀ f, Effect.synchronizeVideos f ∈ (runMain a env).1 → f = filtFreqs) ∧
    filtFreqs = [("gait", 12), ("default", 500)] := by
  obtain ⟨extra, htr, hextra⟩ :=
    runMain_trace_shape a env hx trC d hc rot hrot ext hp s hs
  refine ⟨?_, ?_, rfl⟩
  · rw [htr]
    simp
  · intro f hmem
    rw [htr] at hmem
    rcases List.mem_append.mp hmem with h | h
    · rcases List.mem_append.mp h with h | h
      · rcases mem_prefix_cases a trC _ h with h | h | h | h | h
        · exact absurd h (by simp)
        · have := cameraCalibration_effects a.alternateExtrinsics env.camEnv
            env.cameras _ (by rw [hc]; exact h)
          simp [isCalibEffect] at this
        · exact absurd h (by simp)
        · simpa using h
        · exact absurd h (by simp)
      · simp at h
    · have := hextra _ h
      simp [isPostTriEffect] at this

theorem sync_cutoff_table_witness :
    Effect.synchronizeVideos filtFreqs ∈ (runMain argsBase (envOk 12)).1 :=
  (sync_cutoff_table argsBase (envOk 12) rfl
    [Effect.loadCachedParams "Cam0"] [("Cam0", some ⟨1⟩)] rfl
    [("x", [-90]), ("y", [90])] (by decide) ".mov" rfl
    ⟨60, ["Cam0"]⟩ rfl).1

/-- C7, counterexample: with two accepted calibration-option sets declared
and no per-camera override — the condition the claim states — but
`scaleModel = False`, the run completes without ever invoking
`autoSelectExtrinsicSolution`. -/
theorem auto_selection_counterexample :
    argsTwoOptions.calibrationOptions = some [0, 1] ∧
    argsTwoOptions.alternateExtrinsics = none ∧
    (runMain argsTwoOptions (envOk 12)).2 = none ∧
    Effect.autoSelectExtrinsic ∉ (runMain argsTwoOptions (envOk 12)).1 := by
  refine ⟨rfl, rfl, by decide, by decide⟩

/-- C7, amended: in every run that reaches the selection point,
`autoSelectExtrinsicSolution` is invoked exactly when `scaleModel` is set,
`calibrationOptions` is not `None` (regardless of how many option sets it
holds) and `alternateExtrinsics` is `None`; when invoked, the auto-selected
camera parameters are the ones handed to triangulation, otherwise the
calibrated ones are. -/
theorem auto_selection_guard (a : Args) (env : Env)
    (hx : a.extrinsicsTrial = false)
    (trC : List Effect) (d : List (String × Option CamParams))
    (hc : cameraCalibration a.alternateExtrinsics env.camEnv env.cameras =
      (trC, .ok d))
    (rot : List (String × List ℤ))
    (hrot : rotationAngles env.placement (env.upsideDown d) = some rot)
    (ext : String) (hp : env.poseDetect = .ok ext)
    (s : SyncResult) (hs : env.sync = .ok s) :
    (Effect.autoSelectExtrinsic ∈ (runMain a env).1 ↔
      autoSelectCond a = true) ∧
    autoSelectCond a =
      (a.scaleModel && a.calibrationOptions.isSome &&
        a.alternateExtrinsics.isNone) ∧
    (autoSelectCond a = true →
      Effect.triangulate env.autoSelected true
        (splineMaxFramesOf s.frameRate) ∈ (runMain a env).1) ∧
    (autoSelectCond a = false →
      Effect.triangulate d true
        (splineMaxFramesOf s.frameRate) ∈ (runMain a env).1) := by
  obtain ⟨extra, htr, hextra⟩ :=
    runMain_trace_shape a env hx trC d hc rot hrot ext hp s hs
  refine ⟨⟨?_, ?_⟩, rfl, ?_, ?_⟩
  · intro hmem
    by_cases hA : autoSelectCond a
    · exact hA
    · exfalso
      rw [if_neg hA] at htr
      rw [htr] at hmem
      rcases List.mem_append.mp hmem with h | h
      · rcases List.mem_append.mp h with h | h
        · simp at h
          have := cameraCalibration_effects a.alternateExtrinsics env.camEnv
            env.cameras _ (by rw [hc]; exact h)
          simp [isCalibEffect] at this
        · simp at h
      · have := hextra _ h
        simp [isPostTriEffect] at this
  · intro hA
    rw [htr, if_pos hA]
    simp
  · intro hA
    rw [htr]
    simp [selectedDict, hA]
  · intro hA
    rw [htr]
    simp [selectedDict, hA]

theorem auto_selection_guard_witness :
    Effect.autoSelectExtrinsic ∈ (runMain argsAuto (envOk 12)).1 :=
  ((auto_selection_guard argsAuto (envOk 12) rfl
    [Effect.loadCachedParams "Cam0"] [("Cam0", some ⟨1⟩)] rfl
    [("x", [-90]), ("y", [90])] (by decide) ".mov" rfl
    ⟨60, ["Cam0"]⟩ rfl).1).mpr rfl

/-- C2, counterexample: two raise sites surface single-argument payloads.
A run hitting the unknown-checkerboard-placement raise of line 292
propagates the one-element argument list `[placementUnsupported]`, and a
run hitting the missing-scaled-model `ValueError` of line 511 propagates
the one-element list `[noScaledModel]` — neither is a two-part payload. -/
theorem error_payload_counterexample :
    (runMain argsBase envBadPlacement).2 = some [Msg.placementUnsupported] ∧
    ([Msg.placementUnsupported] : PyErr).length ≠ 2 ∧
    (runMain argsBase envNoScaled).2 = some [Msg.noScaledModel] ∧
    ([Msg.noScaledModel] : PyErr).length ≠ 2 := by
  refine ⟨by decide, by decide, by decide, by decide⟩

/-- C2, amended: every exception `main` surfaces carries a two-part
payload, except the unknown-checkerboard-placement raise of line 292 and
the missing-scaled-model `ValueError` of line 511, which carry a single
message (and the single-argument `NameError` cases arising when a caught
external exception has an argument count the `except` clauses do not
rewrap). -/
theorem error_payload_two_part (a : Args) (env : Env) (err : PyErr)
    (h : (runMain a env).2 = some err) : errPayloadOk err :=
  runMain_error a env err h

theorem error_payload_two_part_witness :
    errPayloadOk [Msg.insufficientFrames, Msg.insufficientFrames] :=
  error_payload_two_part argsBase (envOk 9)
    [Msg.insufficientFrames, Msg.insufficientFrames] (by decide)

end OpenCap
